import Mathlib

/-!
Shallow embedding of the YouTube video summarizer (`app.py`).

The program has three core functions:
* `extract_video_id` : regex-based extraction of an 11-character video id
  from a URL string;
* `extract_transcript_details` : orchestration around the external
  transcript service (extract id, fetch fragments, join the texts);
* `generate_gemini_content` : builds one of two fixed prompt templates and
  appends the transcript verbatim (we model the outbound prompt; the
  network call itself is external).

Python regex `re.search` with pattern `(?:v=|\/)([0-9A-Za-z_-]{11}).*`
scans positions left to right; at each position it tries the alternatives
`v=` then `/`, then requires exactly 11 characters of the class
`[0-9A-Za-z_-]`; the trailing `.*` always matches.  The second pattern
`(?:be\/)([0-9A-Za-z_-]{11}).*` is only tried after the first fails on the
whole string.  Strings are modelled as `String` / `List Char`; external
services are parameters returning an explicit result type; Python
truthiness of strings (`if not video_id`) is modelled by comparison with
the empty string.
-/

/-- Character class `[0-9A-Za-z_-]` of the regex patterns in
`extract_video_id` (`app.py` lines 58-61). -/
def isVidChar (c : Char) : Bool :=
  (('0' ≤ c) && (c ≤ '9')) || (('A' ≤ c) && (c ≤ 'Z')) ||
  (('a' ≤ c) && (c ≤ 'z')) || (c = '_') || (c = '-')

/-- `validTake n s` models the regex fragment `[0-9A-Za-z_-]{n}` applied at
the start of `s`: it succeeds with the first `n` characters exactly when
`s` has at least `n` characters and the first `n` are all in the class. -/
def validTake : Nat → List Char → Option (List Char)
  | 0, _ => some []
  | _ + 1, [] => none
  | n + 1, c :: cs =>
      if isVidChar c then Option.map (fun t => c :: t) (validTake n cs)
      else none

/-- One attempt of pattern 1, `(?:v=|\/)([0-9A-Za-z_-]{11}).*`, anchored at
the start of the given character list (the trailing `.*` always matches and
is omitted).  At a fixed position the regex engine tries the alternative
`v=` first, then `/`; they are mutually exclusive since they begin with
different characters. -/
def matchPat1At : List Char → Option (List Char)
  | [] => none
  | [c] => if c = 'v' then none else if c = '/' then validTake 11 [] else none
  | c :: d :: rest2 =>
      if c = 'v' then (if d = '=' then validTake 11 rest2 else none)
      else if c = '/' then validTake 11 (d :: rest2)
      else none

/-- One attempt of pattern 2, `(?:be\/)([0-9A-Za-z_-]{11}).*`, anchored at
the start of the given character list. -/
def matchPat2At : List Char → Option (List Char)
  | c1 :: c2 :: c3 :: rest =>
      if c1 = 'b' ∧ c2 = 'e' ∧ c3 = '/' then validTake 11 rest else none
  | _ => none

/-- The `re.search` scan: try the anchored matcher at each position, left
to right, and return the captured group of the first position where it
succeeds. -/
def reSearch (matchAt : List Char → Option (List Char)) :
    List Char → Option (List Char)
  | [] => none
  | c :: cs =>
      match matchAt (c :: cs) with
      | some t => some t
      | none => reSearch matchAt cs

/-- `extract_video_id` (`app.py` lines 56-67): `re.search` each of the two
patterns in order; on the first match return `match.group(1)`, else
`None`. -/
def extract_video_id (youtube_url : String) : Option String :=
  match reSearch matchPat1At youtube_url.data with
  | some t => some (String.mk t)
  | none =>
      match reSearch matchPat2At youtube_url.data with
      | some t => some (String.mk t)
      | none => none

/-- A transcript fragment as used by `extract_transcript_details`: the code
reads only `item["text"]` of each fragment returned by the transcript
service (the `start`/`duration` fields are never consulted). -/
structure TranscriptFragment where
  text : String
deriving DecidableEq

/-- Outcome of a call to the external transcript service
`YouTubeTranscriptApi.get_transcript`: a fragment list, or an exception
carrying a message `str(e)`. -/
inductive FetchResult where
  | ok : List TranscriptFragment → FetchResult
  | err : String → FetchResult
deriving DecidableEq

/-- Observable outcome of `extract_transcript_details`: its return value
(`None` on any failure), the message displayed by `st.error` if any, and
whether the external transcript service was called. -/
structure FetchOutcome where
  result : Option String
  errorShown : Option String
  serviceCalled : Bool
deriving DecidableEq

/-- `extract_transcript_details` (`app.py` lines 69-82), parameterised by
the external transcript service.  If `extract_video_id` yields a falsy
value (`None` or the empty string), `ValueError("Invalid YouTube URL")` is
raised, caught by the enclosing `except`, shown as
`f"Error: {str(e)}"` and `None` is returned — with no service call.
Otherwise the service is called; on an exception with message `msg` the
handler shows `"Error: " ++ msg` and returns `None`; on success the
fragment texts are joined by `" ".join(...)` in the order returned. -/
def extract_transcript_details (get_transcript : String → FetchResult)
    (youtube_video_url : String) : FetchOutcome :=
  match extract_video_id youtube_video_url with
  | none =>
      { result := none
        errorShown := some "Error: Invalid YouTube URL"
        serviceCalled := false }
  | some video_id =>
      if video_id = "" then
        { result := none
          errorShown := some "Error: Invalid YouTube URL"
          serviceCalled := false }
      else
        match get_transcript video_id with
        | FetchResult.err msg =>
            { result := none
              errorShown := some ("Error: " ++ msg)
              serviceCalled := true }
        | FetchResult.ok frags =>
            { result := some (String.intercalate " "
                (frags.map (fun item => item.text)))
              errorShown := none
              serviceCalled := true }

/-- The detailed-mode prompt template, verbatim from `app.py` lines 87-92
(a Python triple-quoted literal, including its newlines, the 12-space
indentation of continuation lines, and trailing spaces). -/
def detailedTemplate : String :=
  "You are a YouTube video summarizer specially for lecture videos. \n            Provide a detailed summary of the following transcript within 250 words. \n            Include main topics covered, key takeaways, and important concepts discussed.\n            Format the output with proper headings and bullet points where appropriate.\n            \n            Transcript: "

/-- The quick-mode prompt template, verbatim from `app.py` lines 94-97. -/
def quickTemplate : String :=
  "Provide a brief, concise summary of the main points from this video transcript \n            in no more than 100 words. Focus on the core message and key takeaways.\n            \n            Transcript: "

/-- The outbound prompt built by `generate_gemini_content`
(`app.py` lines 84-100): the detailed template when
`summary_type == "detailed"`, the quick template for any other value, with
the transcript appended verbatim (`prompt + transcript_youtube`). -/
def generate_gemini_content_prompt (transcript_youtube : String)
    (summary_type : String) : String :=
  (if summary_type = "detailed" then detailedTemplate else quickTemplate)
    ++ transcript_youtube

/-- The analyze branch of `main` (`app.py` lines 162-177): run
`extract_transcript_details`; only `if transcript:` (truthy, i.e. not
`None` and not empty) is `generate_gemini_content` invoked, with mode
`"quick"` or `"detailed"` according to the sidebar label.  The second
component is the prompt sent to the generative service, `none` when the
Summary Requester is never invoked. -/
def analyze_video (get_transcript : String → FetchResult)
    (youtube_link : String) (summary_type_label : String) :
    FetchOutcome × Option String :=
  let fo := extract_transcript_details get_transcript youtube_link
  match fo.result with
  | none => (fo, none)
  | some transcript =>
      if transcript = "" then (fo, none)
      else
        (fo, some (generate_gemini_content_prompt transcript
          (if summary_type_label = "Quick Summary" then "quick"
           else "detailed")))

/-- Startup check (`app.py` lines 11-14): read `GOOGLE_API_KEY` from the
environment; if it is falsy (`None` or empty), `st.error` then `st.stop()`
halt the script before anything else runs. -/
def startup_check (env : String → Option String) : Except String String :=
  match env "GOOGLE_API_KEY" with
  | none => Except.error "Please set your GOOGLE_API_KEY in the .env file"
  | some api_key =>
      if api_key = "" then
        Except.error "Please set your GOOGLE_API_KEY in the .env file"
      else Except.ok api_key

/-- Whole-program run for one request: the startup check followed, only if
it passed, by the request handling of `main`.  `halted` carries the fatal
startup message; `served` is `none` exactly when no request handling (no
extraction, no transcript fetch, no summary request) took place. -/
structure AppOutcome where
  halted : Option String
  served : Option (FetchOutcome × Option String)
deriving DecidableEq

/-- One run of the program on one request, from startup. -/
def run_app (env : String → Option String)
    (get_transcript : String → FetchResult)
    (youtube_link : String) (summary_type_label : String) : AppOutcome :=
  match startup_check env with
  | Except.error m => { halted := some m, served := none }
  | Except.ok _ =>
      { halted := none
        served := some (analyze_video get_transcript youtube_link
          summary_type_label) }

/-!  Spec-side definitions, written from the specification's words, to be
compared with the embedded code. -/

/-- Modelled from the spec: "ordered concatenation of
TranscriptFragment.text values, joined by single spaces". -/
def orderedSpaceJoin : List String → String
  | [] => ""
  | [t] => t
  | t :: ts => t ++ " " ++ orderedSpaceJoin ts

/-!  Helper lemmas about the regex model. -/

theorem validTake_eq_some {n : Nat} {r t : List Char}
    (h : validTake n r = some t) :
    t = r.take n ∧ t.length = n ∧ t.all isVidChar = true := by
  induction n generalizing r t with
  | zero =>
      simp only [validTake, Option.some.injEq] at h
      subst h
      simp
  | succ m ih =>
      match r with
      | [] =>
          rw [show validTake (m + 1) ([] : List Char) = none from rfl] at h
          exact Option.noConfusion h
      | c :: cs =>
          simp only [validTake] at h
          by_cases hc : isVidChar c
          · rw [if_pos hc] at h
            match hv : validTake m cs with
            | none => rw [hv] at h; simp at h
            | some u =>
                rw [hv] at h
                have ht : t = c :: u :=
                  (Option.some.inj (show some (c :: u) = some t from h)).symm
                obtain ⟨hu1, hu2, hu3⟩ := ih hv
                subst ht
                refine ⟨by rw [hu1]; rfl, by simp [hu2], ?_⟩
                simp [List.all_cons, hc, hu3]
          · rw [if_neg hc] at h; simp at h

theorem validTake_of_append {t rest : List Char}
    (hlen : t.length = 11) (hval : t.all isVidChar = true) :
    validTake 11 (t ++ rest) = some t := by
  suffices h : ∀ (u : List Char), u.all isVidChar = true →
      validTake u.length (u ++ rest) = some u by
    have := h t hval
    rwa [hlen] at this
  intro u hu
  induction u with
  | nil => rfl
  | cons c cs ih =>
      simp only [List.all_cons, Bool.and_eq_true] at hu
      show validTake (cs.length + 1) (c :: (cs ++ rest)) = some (c :: cs)
      simp only [validTake, if_pos hu.1, ih hu.2]
      rfl

theorem matchPat1At_eq_some_iff {s t : List Char} :
    matchPat1At s = some t ↔
      t.length = 11 ∧ t.all isVidChar = true ∧
        ((∃ rest, s = 'v' :: '=' :: (t ++ rest)) ∨
         (∃ rest, s = '/' :: (t ++ rest))) := by
  constructor
  · intro h
    match s with
    | [] => exact Option.noConfusion h
    | [c] =>
        simp only [matchPat1At] at h
        by_cases hv : c = 'v'
        · rw [if_pos hv] at h; exact Option.noConfusion h
        · rw [if_neg hv] at h
          by_cases hs : c = '/'
          · rw [if_pos hs] at h
            rw [show validTake 11 ([] : List Char) = none from rfl] at h
            exact Option.noConfusion h
          · rw [if_neg hs] at h; exact Option.noConfusion h
    | c :: d :: rest2 =>
        simp only [matchPat1At] at h
        by_cases hv : c = 'v'
        · rw [if_pos hv] at h
          by_cases hd : d = '='
          · rw [if_pos hd] at h
            obtain ⟨h1, h2, h3⟩ := validTake_eq_some h
            subst hv hd
            refine ⟨h2, h3, Or.inl ⟨rest2.drop 11, ?_⟩⟩
            rw [h1, List.take_append_drop]
          · rw [if_neg hd] at h; exact Option.noConfusion h
        · rw [if_neg hv] at h
          by_cases hs : c = '/'
          · rw [if_pos hs] at h
            obtain ⟨h1, h2, h3⟩ := validTake_eq_some h
            subst hs
            refine ⟨h2, h3, Or.inr ⟨(d :: rest2).drop 11, ?_⟩⟩
            rw [h1]
            exact congrArg (fun l => '/' :: l) (List.take_append_drop 11 _).symm
          · rw [if_neg hs] at h; exact Option.noConfusion h
  · rintro ⟨hlen, hval, ⟨rest, hs⟩ | ⟨rest, hs⟩⟩
    · subst hs
      have hv : validTake 11 (t ++ rest) = some t :=
        validTake_of_append hlen hval
      simp [matchPat1At, hv]
    · subst hs
      obtain ⟨a, t2, rfl⟩ : ∃ a t2, t = a :: t2 := by
        cases t with
        | nil => exact absurd hlen (by decide)
        | cons a t2 => exact ⟨a, t2, rfl⟩
      have hv : validTake 11 (a :: (t2 ++ rest)) = some (a :: t2) :=
        validTake_of_append hlen hval
      simp [matchPat1At, hv]

theorem matchPat2At_eq_some {s t : List Char} (h : matchPat2At s = some t) :
    t.length = 11 ∧ t.all isVidChar = true ∧
      ∃ rest, s = 'b' :: 'e' :: '/' :: (t ++ rest) := by
  match s with
  | [] => exact Option.noConfusion h
  | [_] => exact Option.noConfusion h
  | [_, _] => exact Option.noConfusion h
  | c1 :: c2 :: c3 :: rest =>
      simp only [matchPat2At] at h
      by_cases hc : c1 = 'b' ∧ c2 = 'e' ∧ c3 = '/'
      · rw [if_pos hc] at h
        obtain ⟨h1, h2, h3⟩ := validTake_eq_some h
        obtain ⟨hb, he, hs⟩ := hc
        subst hb he hs
        refine ⟨h2, h3, rest.drop 11, ?_⟩
        rw [h1, List.take_append_drop]
      · rw [if_neg hc] at h; exact Option.noConfusion h

theorem reSearch_cons (m : List Char → Option (List Char)) (c : Char)
    (cs : List Char) :
    reSearch m (c :: cs) = match m (c :: cs) with
      | some t => some t
      | none => reSearch m cs := rfl

theorem reSearch_eq_none_iff (m : List Char → Option (List Char))
    (hnil : m [] = none) (s : List Char) :
    reSearch m s = none ↔ ∀ i, m (s.drop i) = none := by
  induction s with
  | nil => simp [reSearch, List.drop_nil, hnil]
  | cons c cs ih =>
      cases h : m (c :: cs) with
      | some t =>
          rw [reSearch_cons, h]
          constructor
          · intro hc; exact Option.noConfusion hc
          · intro hall
            have h0 := hall 0
            rw [List.drop_zero, h] at h0
            exact Option.noConfusion h0
      | none =>
          rw [reSearch_cons, h]
          show reSearch m cs = none ↔ ∀ i, m ((c :: cs).drop i) = none
          rw [ih]
          constructor
          · intro hall i
            cases i with
            | zero => rw [List.drop_zero]; exact h
            | succ j => rw [List.drop_succ_cons]; exact hall j
          · intro hall j
            have := hall (j + 1)
            rwa [List.drop_succ_cons] at this

theorem reSearch_eq_some_of (m : List Char → Option (List Char))
    (hnil : m [] = none) (s : List Char) (i : Nat) (t : List Char)
    (hm : m (s.drop i) = some t)
    (hfirst : ∀ j, j < i → m (s.drop j) = none) :
    reSearch m s = some t := by
  induction s generalizing i with
  | nil =>
      rw [List.drop_nil, hnil] at hm
      exact Option.noConfusion hm
  | cons c cs ih =>
      cases i with
      | zero =>
          rw [List.drop_zero] at hm
          rw [reSearch_cons, hm]
      | succ j =>
          have h0 : m (c :: cs) = none := by
            have := hfirst 0 (Nat.succ_pos j)
            rwa [List.drop_zero] at this
          rw [reSearch_cons, h0]
          show reSearch m cs = some t
          refine ih j (by rwa [List.drop_succ_cons] at hm) ?_
          intro k hk
          have := hfirst (k + 1) (Nat.succ_lt_succ hk)
          rwa [List.drop_succ_cons] at this

theorem reSearch_some_exists (m : List Char → Option (List Char))
    (s t : List Char) (h : reSearch m s = some t) :
    ∃ i, m (s.drop i) = some t := by
  induction s with
  | nil => exact Option.noConfusion h
  | cons c cs ih =>
      cases hh : m (c :: cs) with
      | some u =>
          rw [reSearch_cons, hh] at h
          have h2 : some u = some t := h
          exact ⟨0, by rw [List.drop_zero, hh]; exact h2⟩
      | none =>
          rw [reSearch_cons, hh] at h
          have h2 : reSearch m cs = some t := h
          obtain ⟨i, hi⟩ := ih h2
          exact ⟨i + 1, by rwa [List.drop_succ_cons]⟩

/-- Any match of pattern 2 (`be/` then 11 class characters) at position `i`
yields a match of pattern 1 (`/` then 11 class characters) at `i + 2`, with
the same captured group: pattern 2 is subsumed by pattern 1. -/
theorem matchPat2At_shift {s : List Char} {i : Nat} {t : List Char}
    (h : matchPat2At (s.drop i) = some t) :
    matchPat1At (s.drop (i + 2)) = some t ∧ i + 2 < s.length := by
  obtain ⟨hlen, hval, rest, hs⟩ := matchPat2At_eq_some h
  have hdrop : s.drop (i + 2) = '/' :: (t ++ rest) := by
    have h2 := congrArg (List.drop 2) hs
    rw [List.drop_drop] at h2
    simpa using h2
  constructor
  · rw [hdrop]
    exact matchPat1At_eq_some_iff.mpr ⟨hlen, hval, Or.inr ⟨rest, rfl⟩⟩
  · have hlen2 : (s.drop (i + 2)).length = t.length + rest.length + 1 := by
      rw [hdrop]
      simp only [List.length_cons, List.length_append]
    rw [List.length_drop, hlen] at hlen2
    omega

/-- Any identifier returned by `extract_video_id` has exactly 11
characters, all in the class `[0-9A-Za-z_-]`, and appears in the input
immediately after an occurrence of `v=` or of `/`. -/
theorem extract_video_id_eq_some {u t : String}
    (h : extract_video_id u = some t) :
    t.data.length = 11 ∧ t.data.all isVidChar = true ∧
      ∃ i rest, u.data.drop i = 'v' :: '=' :: (t.data ++ rest) ∨
        u.data.drop i = '/' :: (t.data ++ rest) := by
  unfold extract_video_id at h
  cases h1 : reSearch matchPat1At u.data with
  | some l =>
      rw [h1] at h
      have ht : t = String.mk l := (Option.some.inj h).symm
      subst ht
      obtain ⟨i, hi⟩ := reSearch_some_exists _ _ _ h1
      obtain ⟨hlen, hval, ⟨rest, hs⟩ | ⟨rest, hs⟩⟩ :=
        matchPat1At_eq_some_iff.mp hi
      · exact ⟨hlen, hval, i, rest, Or.inl hs⟩
      · exact ⟨hlen, hval, i, rest, Or.inr hs⟩
  | none =>
      rw [h1] at h
      cases h2 : reSearch matchPat2At u.data with
      | some l =>
          rw [h2] at h
          have ht : t = String.mk l := (Option.some.inj h).symm
          subst ht
          obtain ⟨i, hi⟩ := reSearch_some_exists _ _ _ h2
          obtain ⟨hlen, hval, rest, _⟩ := matchPat2At_eq_some hi
          obtain ⟨hshift, _⟩ := matchPat2At_shift hi
          obtain ⟨_, _, ⟨rest2, hs⟩ | ⟨rest2, hs⟩⟩ :=
            matchPat1At_eq_some_iff.mp hshift
          · exact ⟨hlen, hval, i + 2, rest2, Or.inl hs⟩
          · exact ⟨hlen, hval, i + 2, rest2, Or.inr hs⟩
      | none =>
          rw [h2] at h
          exact Option.noConfusion h

/-- An extracted identifier is never the empty string (it always has 11
characters) — so the Python truthiness test `if not video_id` in
`extract_transcript_details` distinguishes exactly the `None` case. -/
theorem extract_video_id_ne_empty {u t : String}
    (h : extract_video_id u = some t) : t ≠ "" := by
  obtain ⟨hlen, -, -⟩ := extract_video_id_eq_some h
  intro he
  subst he
  exact absurd hlen (by decide)

/-- When no position of the input carries `v=` or `/` followed by 11
characters of the class, `extract_video_id` returns `None`. -/
theorem extract_video_id_eq_none {u : String}
    (h : ∀ i, i < u.data.length → matchPat1At (u.data.drop i) = none) :
    extract_video_id u = none := by
  have hall : ∀ i, matchPat1At (u.data.drop i) = none := by
    intro i
    by_cases hi : i < u.data.length
    · exact h i hi
    · rw [List.drop_eq_nil_of_le (Nat.le_of_not_lt hi)]
      rfl
  have h1 : reSearch matchPat1At u.data = none :=
    (reSearch_eq_none_iff matchPat1At rfl u.data).mpr hall
  have h2 : reSearch matchPat2At u.data = none := by
    refine (reSearch_eq_none_iff matchPat2At rfl u.data).mpr ?_
    intro i
    cases hm : matchPat2At (u.data.drop i) with
    | none => rfl
    | some t =>
        obtain ⟨hshift, -⟩ := matchPat2At_shift hm
        rw [hall (i + 2)] at hshift
        exact Option.noConfusion hshift
  unfold extract_video_id
  rw [h1, h2]

theorem intercalate_go_append (x y s : String) (l : List String) :
    String.intercalate.go (x ++ y) s l = x ++ String.intercalate.go y s l := by
  induction l generalizing y with
  | nil => rfl
  | cons a as ih =>
      show String.intercalate.go ((x ++ y) ++ s ++ a) s as
        = x ++ String.intercalate.go (y ++ s ++ a) s as
      rw [String.append_assoc x y s, String.append_assoc x (y ++ s) a]
      exact ih ((y ++ s) ++ a)

/-- The code's `" ".join(...)` (modelled by `String.intercalate " "`)
computes exactly the spec's "ordered concatenation joined by single
spaces". -/
theorem intercalate_space_eq_orderedSpaceJoin (l : List String) :
    String.intercalate " " l = orderedSpaceJoin l := by
  induction l with
  | nil => rfl
  | cons a as ih =>
      cases as with
      | nil => rfl
      | cons b bs =>
          show String.intercalate.go ((a ++ " ") ++ b) " " bs
            = a ++ " " ++ orderedSpaceJoin (b :: bs)
          rw [intercalate_go_append (a ++ " ") b " " bs]
          have hg : String.intercalate.go b " " bs
              = String.intercalate " " (b :: bs) := rfl
          rw [hg, ih]

/-!  Claim theorems. -/

/-- C1 counterexample: the input `/abcdefghijk?v=ABCDEFGHIJK` contains the
substring `v=ABCDEFGHIJK` with a valid 11-character token, yet
`extract_video_id` does not return `ABCDEFGHIJK`: the leftmost match of
pattern 1 is the `/` at position 0 followed by `abcdefghijk`, so that token
is returned instead. -/
theorem C1_counterexample :
    (('v' :: '=' :: "ABCDEFGHIJK".data) <:+: "/abcdefghijk?v=ABCDEFGHIJK".data)
    ∧ "ABCDEFGHIJK".data.length = 11
    ∧ "ABCDEFGHIJK".data.all isVidChar = true
    ∧ extract_video_id "/abcdefghijk?v=ABCDEFGHIJK" ≠ some "ABCDEFGHIJK"
    ∧ extract_video_id "/abcdefghijk?v=ABCDEFGHIJK" = some "abcdefghijk" := by
  refine ⟨⟨"/abcdefghijk?".data, [], by decide⟩, by decide, by decide,
    by decide, by decide⟩

/-- C1 (amended): `extract_video_id` returns the token captured at the
leftmost position where `v=` or `/` is immediately followed by 11
characters of `[0-9A-Za-z_-]`; in particular, when the claimed
`v=<id>` (or the `/` of `youtu.be/<id>`) occurrence is that leftmost
position, exactly that id is returned. -/
theorem C1_extracts_leftmost_pattern_match (s : String) (i : Nat)
    (tok rest : List Char)
    (hlen : tok.length = 11) (hval : tok.all isVidChar = true)
    (hpos : s.data.drop i = 'v' :: '=' :: (tok ++ rest) ∨
            s.data.drop i = '/' :: (tok ++ rest))
    (hfirst : ∀ j, j < i → matchPat1At (s.data.drop j) = none) :
    extract_video_id s = some (String.mk tok) := by
  have hm : matchPat1At (s.data.drop i) = some tok := by
    rcases hpos with h | h
    · rw [h]
      exact matchPat1At_eq_some_iff.mpr ⟨hlen, hval, Or.inl ⟨rest, rfl⟩⟩
    · rw [h]
      exact matchPat1At_eq_some_iff.mpr ⟨hlen, hval, Or.inr ⟨rest, rfl⟩⟩
  have h1 : reSearch matchPat1At s.data = some tok :=
    reSearch_eq_some_of matchPat1At rfl s.data i tok hm hfirst
  unfold extract_video_id
  rw [h1]

/-- Witness for C1 (amended): on the scenario-1 URL the `v=` occurrence at
position 30 is the leftmost pattern match and its token is returned. -/
theorem C1_extracts_leftmost_pattern_match_witness :
    extract_video_id "https://www.youtube.com/watch?v=dQw4w9WgXcQ&t=5s"
      = some (String.mk "dQw4w9WgXcQ".data) :=
  C1_extracts_leftmost_pattern_match
    "https://www.youtube.com/watch?v=dQw4w9WgXcQ&t=5s" 30
    "dQw4w9WgXcQ".data "&t=5s".data (by decide) (by decide)
    (Or.inl (by decide)) (by decide)

/-- C2 counterexample: the input `/abcdefghijk` contains no `v=<id>` and no
`youtu.be/<id>` substring (it has no `v` and no `youtu.be/` at all), yet
`extract_video_id` returns `abcdefghijk` rather than `None`, because
pattern 1 also fires on a bare `/` followed by 11 class characters. -/
theorem C2_counterexample :
    ¬ ("v=".data <:+: "/abcdefghijk".data)
    ∧ ¬ ("youtu.be/".data <:+: "/abcdefghijk".data)
    ∧ extract_video_id "/abcdefghijk" = some "abcdefghijk" := by
  refine ⟨by decide, by decide, by decide⟩

/-- C2 (amended): `extract_video_id` returns `None` on every input with no
position where `v=` or `/` is immediately followed by 11 characters of
`[0-9A-Za-z_-]` (pattern 2 needs `be/` and is subsumed); being a total
Lean function of the input, it never raises. -/
theorem C2_no_pattern_match_returns_none (s : String)
    (h : ∀ i, i < s.data.length → matchPat1At (s.data.drop i) = none) :
    extract_video_id s = none :=
  extract_video_id_eq_none h

/-- Witness for C2 (amended): `not a url` has no pattern match at any of
its 9 positions and yields `None`. -/
theorem C2_no_pattern_match_returns_none_witness :
    extract_video_id "not a url" = none :=
  C2_no_pattern_match_returns_none "not a url" (by decide)

/-- C3: whenever `extract_video_id` yields `None`,
`extract_transcript_details` makes no call to the external transcript
service, surfaces the invalid-input message `Error: Invalid YouTube URL`,
and returns no transcript. -/
theorem C3_invalid_url_no_service_call
    (get_transcript : String → FetchResult) (url : String)
    (h : extract_video_id url = none) :
    (extract_transcript_details get_transcript url).serviceCalled = false
    ∧ (extract_transcript_details get_transcript url).errorShown
        = some "Error: Invalid YouTube URL"
    ∧ (extract_transcript_details get_transcript url).result = none := by
  unfold extract_transcript_details
  rw [h]
  exact ⟨rfl, rfl, rfl⟩

/-- Witness for C3 at the scenario-3 input `not a url`. -/
theorem C3_invalid_url_no_service_call_witness :
    (extract_transcript_details (fun _ => FetchResult.err "x")
        "not a url").serviceCalled = false
    ∧ (extract_transcript_details (fun _ => FetchResult.err "x")
        "not a url").errorShown = some "Error: Invalid YouTube URL"
    ∧ (extract_transcript_details (fun _ => FetchResult.err "x")
        "not a url").result = none :=
  C3_invalid_url_no_service_call (fun _ => FetchResult.err "x") "not a url"
    (by decide)

/-- C4: when the transcript service returns a fragment list, the transcript
built by `extract_transcript_details` is the ordered concatenation of the
fragments' `text` fields joined by single spaces (no reordering, no
deduplication): the code's `" ".join` equals the spec's
`orderedSpaceJoin`. -/
theorem C4_transcript_is_ordered_space_join
    (frags : List TranscriptFragment) (url vid : String)
    (h : extract_video_id url = some vid) :
    (extract_transcript_details (fun _ => FetchResult.ok frags) url).result
      = some (orderedSpaceJoin (frags.map (fun f => f.text))) := by
  have hne : vid ≠ "" := extract_video_id_ne_empty h
  simp only [extract_transcript_details, h]
  rw [if_neg hne]
  show some (String.intercalate " " (frags.map fun item => item.text)) = _
  rw [intercalate_space_eq_orderedSpaceJoin]

/-- Witness for C4 at scenario 4: fragments `A`, `B`, `C` yield
`A B C`. -/
theorem C4_transcript_is_ordered_space_join_witness :
    (extract_transcript_details
        (fun _ => FetchResult.ok [⟨"A"⟩, ⟨"B"⟩, ⟨"C"⟩])
        "https://youtu.be/dQw4w9WgXcQ").result
      = some (orderedSpaceJoin ["A", "B", "C"])
    ∧ orderedSpaceJoin ["A", "B", "C"] = "A B C" :=
  ⟨C4_transcript_is_ordered_space_join [⟨"A"⟩, ⟨"B"⟩, ⟨"C"⟩]
      "https://youtu.be/dQw4w9WgXcQ" "dQw4w9WgXcQ" (by decide), by decide⟩

/-- C5: for either mode, the outbound prompt of `generate_gemini_content`
starts with that mode's fixed template, ends with the verbatim transcript,
and its length is exactly the template length plus the transcript length
(no truncation or chunking). -/
theorem C5_prompt_template_and_transcript (t : String) :
    (detailedTemplate.data <+:
        (generate_gemini_content_prompt t "detailed").data
      ∧ t.data <:+ (generate_gemini_content_prompt t "detailed").data
      ∧ (generate_gemini_content_prompt t "detailed").length
          = detailedTemplate.length + t.length)
    ∧ (quickTemplate.data <+: (generate_gemini_content_prompt t "quick").data
      ∧ t.data <:+ (generate_gemini_content_prompt t "quick").data
      ∧ (generate_gemini_content_prompt t "quick").length
          = quickTemplate.length + t.length) := by
  have hd : generate_gemini_content_prompt t "detailed"
      = detailedTemplate ++ t := by
    unfold generate_gemini_content_prompt
    rw [if_pos rfl]
  have hq : generate_gemini_content_prompt t "quick"
      = quickTemplate ++ t := by
    unfold generate_gemini_content_prompt
    rw [if_neg (by decide)]
  refine ⟨⟨?_, ?_, ?_⟩, ?_, ?_, ?_⟩
  · rw [hd, String.data_append]; exact ⟨t.data, rfl⟩
  · rw [hd, String.data_append]; exact ⟨detailedTemplate.data, rfl⟩
  · rw [hd, String.length_append]
  · rw [hq, String.data_append]; exact ⟨t.data, rfl⟩
  · rw [hq, String.data_append]; exact ⟨quickTemplate.data, rfl⟩
  · rw [hq, String.length_append]

/-- C6: if the transcript fetch raises (any message), then
`extract_transcript_details` returns no transcript at all, surfaces the
error message, and the Summary Requester is never invoked (`main` builds no
prompt for that request). -/
theorem C6_fetch_failure_all_or_nothing
    (get_transcript : String → FetchResult) (url vid msg label : String)
    (h1 : extract_video_id url = some vid)
    (h2 : get_transcript vid = FetchResult.err msg) :
    (extract_transcript_details get_transcript url).result = none
    ∧ (extract_transcript_details get_transcript url).errorShown
        = some ("Error: " ++ msg)
    ∧ (analyze_video get_transcript url label).2 = none := by
  have hne : vid ≠ "" := extract_video_id_ne_empty h1
  have hfo : extract_transcript_details get_transcript url
      = { result := none
          errorShown := some ("Error: " ++ msg)
          serviceCalled := true } := by
    simp only [extract_transcript_details, h1]
    rw [if_neg hne, h2]
  refine ⟨by rw [hfo], by rw [hfo], ?_⟩
  simp only [analyze_video, hfo]

/-- Witness for C6 at scenario 5: the transcript provider fails with
`no captions`; the fetcher surfaces the message and the Summary Requester
is never invoked. -/
theorem C6_fetch_failure_all_or_nothing_witness :
    (extract_transcript_details (fun _ => FetchResult.err "no captions")
        "https://youtu.be/dQw4w9WgXcQ").result = none
    ∧ (extract_transcript_details (fun _ => FetchResult.err "no captions")
        "https://youtu.be/dQw4w9WgXcQ").errorShown
        = some ("Error: " ++ "no captions")
    ∧ (analyze_video (fun _ => FetchResult.err "no captions")
        "https://youtu.be/dQw4w9WgXcQ" "Quick Summary").2 = none :=
  C6_fetch_failure_all_or_nothing (fun _ => FetchResult.err "no captions")
    "https://youtu.be/dQw4w9WgXcQ" "dQw4w9WgXcQ" "no captions"
    "Quick Summary" (by decide) rfl

/-- C7: the two end-to-end scenario URLs both extract `dQw4w9WgXcQ`. -/
theorem C7_scenario_urls :
    extract_video_id "https://www.youtube.com/watch?v=dQw4w9WgXcQ&t=5s"
      = some "dQw4w9WgXcQ"
    ∧ extract_video_id "https://youtu.be/dQw4w9WgXcQ"
      = some "dQw4w9WgXcQ" := by
  exact ⟨by decide, by decide⟩

/-- C8: if `GOOGLE_API_KEY` is absent from the environment, the program
halts at startup with the configuration error and serves no request: no
extraction, no transcript fetch, no summary request happens. -/
theorem C8_missing_credential_halts (env : String → Option String)
    (get_transcript : String → FetchResult) (url label : String)
    (h : env "GOOGLE_API_KEY" = none) :
    run_app env get_transcript url label
      = { halted := some "Please set your GOOGLE_API_KEY in the .env file"
          served := none } := by
  simp only [run_app, startup_check, h]

/-- Witness for C8 with an empty environment. -/
theorem C8_missing_credential_halts_witness :
    run_app (fun _ => none) (fun _ => FetchResult.err "x") "u" "l"
      = { halted := some "Please set your GOOGLE_API_KEY in the .env file"
          served := none } :=
  C8_missing_credential_halts (fun _ => none)
    (fun _ => FetchResult.err "x") "u" "l" rfl

/-- C9: every identifier returned by `extract_video_id` is exactly 11
characters long, each in `[0-9A-Za-z_-]`, and occurs contiguously in the
input immediately preceded by `v=` or by `/`. -/
theorem C9_identifier_invariant (s t : String)
    (h : extract_video_id s = some t) :
    t.length = 11 ∧ t.data.all isVidChar = true ∧
      ∃ pre post, s.data = pre ++ ('v' :: '=' :: t.data) ++ post
        ∨ s.data = pre ++ ('/' :: t.data) ++ post := by
  obtain ⟨hlen, hval, i, rest, hcase⟩ := extract_video_id_eq_some h
  refine ⟨hlen, hval, s.data.take i, rest, ?_⟩
  rcases hcase with hc | hc
  · left
    conv_lhs => rw [← List.take_append_drop i s.data]
    rw [hc]
    simp
  · right
    conv_lhs => rw [← List.take_append_drop i s.data]
    rw [hc]
    simp

/-- Witness for C9 at the short-link scenario URL. -/
theorem C9_identifier_invariant_witness :
    ("dQw4w9WgXcQ" : String).length = 11
    ∧ ("dQw4w9WgXcQ" : String).data.all isVidChar = true
    ∧ ∃ pre post,
        "https://youtu.be/dQw4w9WgXcQ".data
          = pre ++ ('v' :: '=' :: ("dQw4w9WgXcQ" : String).data) ++ post
        ∨ "https://youtu.be/dQw4w9WgXcQ".data
          = pre ++ ('/' :: ("dQw4w9WgXcQ" : String).data) ++ post :=
  C9_identifier_invariant "https://youtu.be/dQw4w9WgXcQ" "dQw4w9WgXcQ"
    (by decide)

set_option maxRecDepth 8192 in
/-- C10: `generate_gemini_content` selects the detailed template exactly
when `summary_type = "detailed"`, and any other value of `summary_type`
silently selects the quick template instead of being rejected. -/
theorem C10_mode_selection (t m : String) :
    (generate_gemini_content_prompt t m = detailedTemplate ++ t
      ↔ m = "detailed")
    ∧ (m ≠ "detailed" →
        generate_gemini_content_prompt t m = quickTemplate ++ t) := by
  by_cases hm : m = "detailed"
  · subst hm
    refine ⟨⟨fun _ => rfl, fun _ => ?_⟩, fun hne => absurd rfl hne⟩
    unfold generate_gemini_content_prompt
    rw [if_pos rfl]
  · have hq : generate_gemini_content_prompt t m = quickTemplate ++ t := by
      unfold generate_gemini_content_prompt
      rw [if_neg hm]
    refine ⟨⟨fun he => ?_, fun hc => absurd hc hm⟩, fun _ => hq⟩
    exfalso
    rw [hq] at he
    have hl := congrArg String.length he
    rw [String.length_append, String.length_append] at hl
    have hne : quickTemplate.length ≠ detailedTemplate.length := by decide
    omega

/-- Witness for C10: a mode string other than `detailed` (and other than
`quick`) still selects the quick template. -/
theorem C10_mode_selection_witness :
    generate_gemini_content_prompt "T" "other" = quickTemplate ++ "T" :=
  (C10_mode_selection "T" "other").2 (by decide)
